import Mathlib

/-!
Verification of the address-book assistant (`src/main.py`) against its
natural-language specification.  The Python program is shallowly embedded:
pure validation becomes Lean functions, in-place mutation becomes explicit
state passing, and Python exceptions become an explicit `PyError` sum
carried in `Except`.  Python `datetime.date` values are embedded as a
`Date` structure of proleptic-Gregorian year/month/day, with day
arithmetic through the rata-die day count (which is what
`date.toordinal`, date subtraction and `weekday()` are defined by).
-/

namespace Assistant

/-- Proleptic Gregorian calendar date, the embedding of `datetime.date`. -/
structure Date where
  year : Nat
  month : Nat
  day : Nat
deriving DecidableEq, Repr

/-- Gregorian leap-year rule, as used by Python's `datetime`. -/
def isLeap (y : Nat) : Bool :=
  y % 4 == 0 && (y % 100 != 0 || y % 400 == 0)

/-- Number of days in month `m` of year `y` (Python `calendar`/`datetime` rule). -/
def daysInMonth (y m : Nat) : Nat :=
  if m = 2 then (if isLeap y then 29 else 28)
  else if m = 4 ∨ m = 6 ∨ m = 9 ∨ m = 11 then 30
  else 31

/-- Days in months `1..m` of year `y` summed. -/
def monthSum (y : Nat) : Nat → Nat
  | 0 => 0
  | m + 1 => monthSum y m + daysInMonth y (m + 1)

/-- Rata-die day number: day count with `0001-01-01 = 1`, the embedding of
`datetime.date.toordinal`. -/
def rataDie (d : Date) : Nat :=
  365 * (d.year - 1) + ((d.year - 1) / 4 - (d.year - 1) / 100) + (d.year - 1) / 400
    + monthSum d.year (d.month - 1) + d.day

/-- Weekday with Monday = 0 … Sunday = 6, the embedding of
`datetime.date.weekday()` (0001-01-01 was a Monday). -/
def weekday (d : Date) : Nat :=
  (rataDie d + 6) % 7

/-- Lexicographic order on dates, the embedding of `date.__lt__`. -/
def dateLt (a b : Date) : Bool :=
  if a.year ≠ b.year then decide (a.year < b.year)
  else if a.month ≠ b.month then decide (a.month < b.month)
  else decide (a.day < b.day)

/-- Successor date (used to embed `date + timedelta(days=n)`). -/
def nextDay (d : Date) : Date :=
  if d.day < daysInMonth d.year d.month then ⟨d.year, d.month, d.day + 1⟩
  else if d.month < 12 then ⟨d.year, d.month + 1, 1⟩
  else ⟨d.year + 1, 1, 1⟩

/-- `date + timedelta(days=n)` for a nonnegative number of days. -/
def addDays (d : Date) : Nat → Date
  | 0 => d
  | n + 1 => nextDay (addDays d n)

/-- Zero-pad a number to two digits, as `strftime` does for `%d` and `%m`. -/
def pad2 (n : Nat) : String :=
  if n < 10 then "0" ++ toString n else toString n

/-- Zero-pad a number to four digits, as `strftime` does for `%Y`. -/
def pad4 (n : Nat) : String :=
  if n < 10 then "000" ++ toString n
  else if n < 100 then "00" ++ toString n
  else if n < 1000 then "0" ++ toString n
  else toString n

/-- Embedding of `strftime("%d.%m.%Y")`. -/
def formatDMY (d : Date) : String :=
  pad2 d.day ++ "." ++ pad2 d.month ++ "." ++ pad4 d.year

/-- The exceptions the program raises: Python's `KeyError`, `ValueError`
and `IndexError`, each with its message. -/
inductive PyError where
  | keyError : String → PyError
  | valueError : String → PyError
  | indexError : String → PyError
deriving DecidableEq, Repr

/-- Embedding of `date.replace(year := y)` (`main.py` line 96/99): Python
re-validates the day against the new year's month length and raises
`ValueError("day is out of range for month")` for Feb 29 in a non-leap
year. -/
def replaceYear (d : Date) (y : Nat) : Except PyError Date :=
  if d.day ≤ daysInMonth y d.month then .ok ⟨y, d.month, d.day⟩
  else .error (.valueError "day is out of range for month")

/-- ASCII decimal digit test; the embedding of Python's `str.isdigit`
per character (the program only ever meets ASCII input). -/
def isDig (c : Char) : Bool :=
  48 ≤ c.toNat && c.toNat ≤ 57

/-- Numeric value of a digit string (most significant first). -/
def digitsToNat (l : List Char) : Nat :=
  l.foldl (fun a c => 10 * a + (c.toNat - 48)) 0

/-- Embedding of `Phone.__init__` (`main.py` lines 16-21):
`len(value) == 10 and value.isdigit()` accepts, anything else raises
`ValueError("Phone number must be 10 digits long.")`. -/
def Phone.init (s : String) : Except PyError String :=
  if s.data.length == 10 && s.data.all isDig then .ok s
  else .error (.valueError "Phone number must be 10 digits long.")

/-- Split a character list on `'.'` (the field structure `strptime` sees
for the format `%d.%m.%Y`, whose directives match only digit runs and
whose sole literal is the dot). -/
def splitDots : List Char → List (List Char)
  | [] => [[]]
  | c :: rest =>
    if c = '.' then [] :: splitDots rest
    else
      match splitDots rest with
      | [] => [[c]]
      | f :: r => (c :: f) :: r

/-- CPython `strptime` day directive `%d`, regex `3[01]|[12]\d|0[1-9]|[1-9]`
applied to one dot-separated field (character codes: 48 = `0` … 57 = `9`). -/
def dayPat : List Char → Bool
  | [c] => 49 ≤ c.toNat && c.toNat ≤ 57
  | [c1, c2] =>
    (c1.toNat == 51 && (c2.toNat == 48 || c2.toNat == 49)) ||
    ((c1.toNat == 49 || c1.toNat == 50) && (48 ≤ c2.toNat && c2.toNat ≤ 57)) ||
    (c1.toNat == 48 && (49 ≤ c2.toNat && c2.toNat ≤ 57))
  | _ => false

/-- CPython `strptime` month directive `%m`, regex `1[0-2]|0[1-9]|[1-9]`. -/
def monthPat : List Char → Bool
  | [c] => 49 ≤ c.toNat && c.toNat ≤ 57
  | [c1, c2] =>
    (c1.toNat == 49 && (48 ≤ c2.toNat && c2.toNat ≤ 50)) ||
    (c1.toNat == 48 && (49 ≤ c2.toNat && c2.toNat ≤ 57))
  | _ => false

/-- CPython `strptime` year directive `%Y`, regex `\d\d\d\d`. -/
def yearPat (l : List Char) : Bool :=
  l.length == 4 && l.all isDig

/-- The `datetime(year, month, day)` constructor's range validation:
positive year, month `1..12`, day within the month's length (applied to
the parsed field values). -/
def realDate (ds ms ys : List Char) : Bool :=
  1 ≤ digitsToNat ys && (1 ≤ digitsToNat ms && digitsToNat ms ≤ 12) &&
    (1 ≤ digitsToNat ds &&
      digitsToNat ds ≤ daysInMonth (digitsToNat ys) (digitsToNat ms))

/-- The field stage of `strptime("%d.%m.%Y")`: exactly three dot-separated
fields matching the `%d`, `%m`, `%Y` directive regexes, whose numbers must
then pass the `datetime` range validation. -/
def strptimeFields : List (List Char) → Option Date
  | [ds, ms, ys] =>
    if dayPat ds && monthPat ms && yearPat ys then
      if realDate ds ms ys then
        some ⟨digitsToNat ys, digitsToNat ms, digitsToNat ds⟩
      else none
    else none
  | _ => none

/-- Embedding of `datetime.strptime(s, "%d.%m.%Y")`. -/
def strptimeDMY (s : String) : Option Date :=
  strptimeFields (splitDots s.data)

/-- Embedding of `Birthday.__init__` + `to_datetime` (`main.py` lines 23-32):
parse with `strptime("%d.%m.%Y")`, raising
`ValueError("Invalid date format. Use DD.MM.YYYY")` on failure.  The record
keeps the parsed date (the stored string parses back to exactly it). -/
def Birthday.init (s : String) : Except PyError Date :=
  match strptimeDMY s with
  | some d => .ok d
  | none => .error (.valueError "Invalid date format. Use DD.MM.YYYY")

/-- Embedding of `Record` (`main.py` lines 34-38): a name, an ordered list
of validated phone strings, and an optional birthday (stored parsed). -/
structure Record where
  name : String
  phones : List String
  birthday : Option Date
deriving DecidableEq, Repr

/-- Embedding of `Record.find_phone` (lines 53-57): first phone whose value
equals the query, if any. -/
def Record.find_phone (r : Record) (p : String) : Option String :=
  r.phones.find? (fun q => q == p)

/-- Embedding of `Record.add_phone` (lines 40-43).  Python mutates in place
and may raise, so the embedding returns the record state paired with the
exception outcome: duplicate check first, then `Phone` validation, then
append. -/
def Record.add_phone (r : Record) (p : String) : Record × Except PyError Unit :=
  if (r.find_phone p).isSome then
    (r, .error (.valueError ("Phone number '" ++ p ++ "' already exists.")))
  else
    match Phone.init p with
    | .ok v => ({ r with phones := r.phones ++ [v] }, .ok ())
    | .error e => (r, .error e)

/-- Embedding of `Record.remove_phone` (lines 59-63): raises
`ValueError(...not found.)` when absent, else removes the found entry. -/
def Record.remove_phone (r : Record) (p : String) : Record × Except PyError Unit :=
  match r.find_phone p with
  | none => (r, .error (.valueError ("Phone number '" ++ p ++ "' not found.")))
  | some ph => ({ r with phones := r.phones.erase ph }, .ok ())

/-- Embedding of `Record.edit_phone` (lines 47-51): duplicate check on the
new phone, then `add_phone(new)`, then `remove_phone(old)`; an exception
part-way leaves the earlier mutation in place. -/
def Record.edit_phone (r : Record) (old new : String) : Record × Except PyError Unit :=
  if (r.find_phone new).isSome then
    (r, .error (.valueError ("Phone number '" ++ new ++ "' already exists.")))
  else
    match r.add_phone new with
    | (r1, .ok _) => r1.remove_phone old
    | (r1, .error e) => (r1, .error e)

/-- Embedding of `Record.add_birthday` (lines 65-66): validate and replace. -/
def Record.add_birthday (r : Record) (s : String) : Record × Except PyError Unit :=
  match Birthday.init s with
  | .ok d => ({ r with birthday := some d }, .ok ())
  | .error e => (r, .error e)

/-- Embedding of `Record.__str__` (lines 68-71). -/
def Record.render (r : Record) : String :=
  "Contact name: " ++ r.name ++ ", phones: " ++ String.intercalate "; " r.phones ++
    (match r.birthday with
     | some b => ", birthday: " ++ formatDMY b
     | none => "")

/-- Embedding of `AddressBook`'s underlying dict: an insertion-ordered
association list from name to record (Python dicts preserve insertion
order; updating an existing key keeps its position). -/
abbrev AddressBook := List (String × Record)

/-- Embedding of dict lookup `self.data.get(name, None)` / `find`. -/
def AddressBook.find : AddressBook → String → Option Record
  | [], _ => none
  | (k, r) :: rest, name => if k = name then some r else AddressBook.find rest name

/-- Embedding of `add_record` (lines 75-76), i.e. `self.data[name] = record`:
replace in place when the key exists, else append. -/
def AddressBook.add_record : AddressBook → Record → AddressBook
  | [], r => [(r.name, r)]
  | (k, v) :: rest, r =>
    if k = r.name then (k, r) :: rest else (k, v) :: AddressBook.add_record rest r

/-- Write the (mutated) record back at its key, the embedding of Python's
in-place mutation of a record reached through the dict. -/
def AddressBook.updateKey : AddressBook → String → Record → AddressBook
  | [], _, _ => []
  | (k, v) :: rest, name, r =>
    (if k = name then (k, r) else (k, v)) :: AddressBook.updateKey rest name r

/-- Embedding of `del self.data[name]` for a present key. -/
def AddressBook.eraseKey : AddressBook → String → AddressBook
  | [], _ => []
  | (k, v) :: rest, name =>
    if k = name then AddressBook.eraseKey rest name
    else (k, v) :: AddressBook.eraseKey rest name

/-- The names appearing in the book, in order (what the `all` listing and
the upcoming-birthday query iterate over). -/
def AddressBook.names (b : AddressBook) : List String :=
  b.map Prod.fst

/-- Embedding of `AddressBook.delete` (lines 81-85). -/
def AddressBook.delete (b : AddressBook) (name : String) : Except PyError AddressBook :=
  if (b.find name).isSome then .ok (b.eraseKey name)
  else .error (.keyError ("Record with name '" ++ name ++ "' not found."))

/-- Per-record traversal of `get_upcoming_birthdays` (lines 87-113),
with the reference date (`datetime.today()`) passed explicitly.  A record
without a birthday is skipped; otherwise the birthday is projected onto
the reference year (re-projected onto the next year when it falls before
the reference date), included when the day difference is in `[0, 7]`,
and a Saturday/Sunday projected date is congratulated the following
Monday (`+ (7 - weekday)` days).  A `ValueError` from `replace`
propagates and aborts the whole query, as the exception does in Python. -/
def upcomingGo (today : Date) : List (String × Record) → Except PyError (List (String × String))
  | [] => .ok []
  | (_, r) :: rest =>
    match r.birthday with
    | none => upcomingGo today rest
    | some bday =>
      match replaceYear bday today.year with
      | .error e => .error e
      | .ok btyRaw =>
        match (if dateLt btyRaw today then replaceYear btyRaw (today.year + 1) else .ok btyRaw) with
        | .error e => .error e
        | .ok bty =>
          match upcomingGo today rest with
          | .error e => .error e
          | .ok restEntries =>
            let diff : Int := (rataDie bty : Int) - (rataDie today : Int)
            if 0 ≤ diff ∧ diff ≤ 7 then
              let cd := if 5 ≤ weekday bty then addDays bty (7 - weekday bty) else bty
              .ok ((r.name, formatDMY cd) :: restEntries)
            else .ok restEntries

/-- Embedding of `AddressBook.get_upcoming_birthdays` (lines 87-113). -/
def AddressBook.get_upcoming_birthdays (book : AddressBook) (today : Date) :
    Except PyError (List (String × String)) :=
  upcomingGo today book

/-- Embedding of the `input_error` decorator (lines 149-159): the outcome of
the wrapped operation, normalized to the user-facing string. -/
def input_error (r : Except PyError String) : String :=
  match r with
  | .ok s => s
  | .error (.keyError _) => "Contact not found."
  | .error (.valueError _) => "Give me name and phone please."
  | .error (.indexError _) => "Invalid input. Please provide the correct number of arguments."

/-- Embedding of the body of `add_contact` (lines 168-181).  `name, phone =
args` raises `ValueError` on a wrong-sized argument list; a missing record
is created and inserted before the phone is added; a `ValueError` from
`add_phone` is caught locally and its message returned. -/
def add_contact_raw (args : List String) (book : AddressBook) :
    Except PyError String × AddressBook :=
  match args with
  | [name, phone] =>
    let r0 := match book.find name with
      | some r => r
      | none => ⟨name, [], none⟩
    let b1 := match book.find name with
      | some _ => book
      | none => book.add_record ⟨name, [], none⟩
    match r0.add_phone phone with
    | (r1, .ok _) => (.ok "Contact added.", b1.updateKey name r1)
    | (r1, .error (.valueError m)) => (.ok m, b1.updateKey name r1)
    | (r1, .error e) => (.error e, b1.updateKey name r1)
  | _ => (.error (.valueError "values to unpack"), book)

/-- `add_contact` as dispatched, i.e. wrapped in `input_error`. -/
def add_contact (args : List String) (book : AddressBook) : String × AddressBook :=
  let (res, b) := add_contact_raw args book
  (input_error res, b)

/-- Embedding of the body of `change_contact` (lines 185-192): unpack three
arguments, `KeyError` when the contact is missing, then `edit_phone` with
no local handler, so its `ValueError`s reach the adapter. -/
def change_contact_raw (args : List String) (book : AddressBook) :
    Except PyError String × AddressBook :=
  match args with
  | [name, old, new] =>
    match book.find name with
    | none => (.error (.keyError "Contact not found."), book)
    | some r =>
      match r.edit_phone old new with
      | (r1, .ok _) => (.ok "Phone updated.", book.updateKey name r1)
      | (r1, .error e) => (.error e, book.updateKey name r1)
  | _ => (.error (.valueError "values to unpack"), book)

/-- `change_contact` as dispatched, i.e. wrapped in `input_error`. -/
def change_contact (args : List String) (book : AddressBook) : String × AddressBook :=
  let (res, b) := change_contact_raw args book
  (input_error res, b)

/-- Embedding of the body of `show_phone` (lines 196-202): `args[0]` raises
`IndexError` on an empty list; a missing record raises `KeyError`. -/
def show_phone_raw (args : List String) (book : AddressBook) : Except PyError String :=
  match args with
  | [] => .error (.indexError "list index out of range")
  | name :: _ =>
    match book.find name with
    | none => .error (.keyError "Contact not found.")
    | some r => .ok (String.intercalate "; " r.phones)

/-- `show_phone` as dispatched, i.e. wrapped in `input_error`. -/
def show_phone (args : List String) (book : AddressBook) : String :=
  input_error (show_phone_raw args book)

/-- Embedding of `show_all` (lines 205-209). -/
def show_all (book : AddressBook) : String :=
  input_error (.ok (if book.isEmpty then "No contacts saved."
    else String.intercalate "\n" (book.map (fun kv => kv.2.render))))

/-- Embedding of the body of `remove_phone_command` (lines 211-227): unpack
two arguments, bare `KeyError` for a missing contact; `remove_phone`'s
`ValueError` is caught locally and its message returned; when the last
phone is removed the whole contact is deleted and the message says so. -/
def remove_phone_command_raw (args : List String) (book : AddressBook) :
    Except PyError String × AddressBook :=
  match args with
  | [name, phone] =>
    match book.find name with
    | none => (.error (.keyError "name"), book)
    | some r =>
      match r.remove_phone phone with
      | (r1, .ok _) =>
        if r1.phones.isEmpty then
          (.ok ("Phone removed. Contact '" ++ name ++ "' deleted because no phones left."),
            book.eraseKey name)
        else
          (.ok ("Phone '" ++ phone ++ "' removed from contact '" ++ name ++ "'."),
            book.updateKey name r1)
      | (r1, .error (.valueError m)) => (.ok m, book.updateKey name r1)
      | (r1, .error e) => (.error e, book.updateKey name r1)
  | _ => (.error (.valueError "values to unpack"), book)

/-- `remove_phone_command` as dispatched, i.e. wrapped in `input_error`. -/
def remove_phone_command (args : List String) (book : AddressBook) : String × AddressBook :=
  let (res, b) := remove_phone_command_raw args book
  (input_error res, b)

/-- Embedding of the body of `delet` (lines 229-233): `args[0]` raises
`IndexError` on an empty list, then `AddressBook.delete`. -/
def delet_raw (args : List String) (book : AddressBook) :
    Except PyError String × AddressBook :=
  match args with
  | [] => (.error (.indexError "list index out of range"), book)
  | name :: _ =>
    match book.delete name with
    | .ok b1 => (.ok ("Contact <" ++ name ++ "> deleted."), b1)
    | .error e => (.error e, book)

/-- `delet` as dispatched, i.e. wrapped in `input_error`. -/
def delet (args : List String) (book : AddressBook) : String × AddressBook :=
  let (res, b) := delet_raw args book
  (input_error res, b)

/-- Embedding of the body of `add_birthday` (lines 235-245): an explicit
arity check raising `ValueError`, `KeyError` for a missing contact, then
`Record.add_birthday` whose `ValueError` propagates to the adapter. -/
def add_birthday_raw (args : List String) (book : AddressBook) :
    Except PyError String × AddressBook :=
  match args with
  | [name, bday] =>
    match book.find name with
    | none => (.error (.keyError "Contact not found."), book)
    | some r =>
      match r.add_birthday bday with
      | (r1, .ok _) => (.ok "Birthday added.", book.updateKey name r1)
      | (r1, .error e) => (.error e, book.updateKey name r1)
  | _ => (.error (.valueError "Please provide both name and birthday. Format: <name> <DD.MM.YYYY>"), book)

/-- `add_birthday` as dispatched, i.e. wrapped in `input_error`. -/
def add_birthday (args : List String) (book : AddressBook) : String × AddressBook :=
  let (res, b) := add_birthday_raw args book
  (input_error res, b)

/-- Embedding of the body of `birthdays` (lines 255-260): run the query and
render one `name - date` line per entry; an exception from the query
propagates to the adapter. -/
def birthdays_raw (book : AddressBook) (today : Date) : Except PyError String :=
  match book.get_upcoming_birthdays today with
  | .error e => .error e
  | .ok l =>
    .ok (if l.isEmpty then "No upcoming birthdays this week."
      else String.intercalate "\n" (l.map (fun it => it.1 ++ " - " ++ it.2)))

/-- `birthdays` as dispatched, i.e. wrapped in `input_error`. -/
def birthdays (book : AddressBook) (today : Date) : String :=
  input_error (birthdays_raw book today)

/-! ## Specification-side definitions

These follow the wording of the specification (not the source) and exist
to be compared with the code embeddings above. -/

/-- Per-record traversal of the upcoming-birthday query as §4.3 of the
spec words it: project the birthday's month/day onto the reference year;
if before the reference date, re-project onto the next year; include the
contact only when `0 <= daysDiff <= windowDays`; a projected date on a
Saturday shifts by 2 days and on a Sunday by 1 day to the following
Monday; emit `name` with the date formatted `DD.MM.YYYY`, in the book's
iteration (insertion) order. -/
def upcomingSpecGo (windowDays : Nat) (refDate : Date) :
    List (String × Record) → Except PyError (List (String × String))
  | [] => .ok []
  | (_, r) :: rest =>
    match r.birthday with
    | none => upcomingSpecGo windowDays refDate rest
    | some bday =>
      match replaceYear bday refDate.year with
      | .error e => .error e
      | .ok bdayThisYear =>
        match (if dateLt bdayThisYear refDate then replaceYear bday (refDate.year + 1)
               else .ok bdayThisYear) with
        | .error e => .error e
        | .ok projected =>
          match upcomingSpecGo windowDays refDate rest with
          | .error e => .error e
          | .ok restEntries =>
            let daysDiff : Int := (rataDie projected : Int) - (rataDie refDate : Int)
            if 0 ≤ daysDiff ∧ daysDiff ≤ (windowDays : Int) then
              let congratulationDate :=
                if weekday projected = 5 then addDays projected 2
                else if weekday projected = 6 then addDays projected 1
                else projected
              .ok ((r.name, formatDMY congratulationDate) :: restEntries)
            else .ok restEntries

/-- `upcomingBirthdays` as the spec describes it, with the default window
of 7 days. -/
def upcomingBirthdaysSpec (book : AddressBook) (refDate : Date) :
    Except PyError (List (String × String)) :=
  upcomingSpecGo 7 refDate book

/-- The birthday format exactly as claim C3 words it, on the dot-separated
fields: a real calendar date written day.month.year with a 2-digit day,
2-digit month and 4-digit year. -/
def specStrictFields : List (List Char) → Bool
  | [ds, ms, ys] =>
    ds.all isDig && ds.length == 2 &&
    (ms.all isDig && ms.length == 2) &&
    (ys.all isDig && ys.length == 4) &&
    realDate ds ms ys
  | _ => false

/-- The birthday format exactly as claim C3 words it, on whole strings. -/
def specStrictDMY (s : String) : Bool :=
  specStrictFields (splitDots s.data)

/-- The birthday format the code actually accepts, stated descriptively on
the dot-separated fields: a real calendar date written day.month.year with
a 1- or 2-digit day, a 1- or 2-digit month and a 4-digit year. -/
def specFlexFields : List (List Char) → Bool
  | [ds, ms, ys] =>
    ds.all isDig && (ds.length == 1 || ds.length == 2) &&
    (ms.all isDig && (ms.length == 1 || ms.length == 2)) &&
    (ys.all isDig && ys.length == 4) &&
    realDate ds ms ys
  | _ => false

/-- The birthday format the code actually accepts, on whole strings. -/
def specFlexDMY (s : String) : Bool :=
  specFlexFields (splitDots s.data)

/-! ## Helper lemmas -/

/-- Appending a phone that was not found makes it the one `find_phone` returns. -/
theorem find_phone_append_self (r : Record) (p : String)
    (h : r.find_phone p = none) :
    Record.find_phone { r with phones := r.phones ++ [p] } p = some p := by
  unfold Record.find_phone at h ⊢
  simp only [List.find?_append, h, Option.none_or]
  simp

/-- Appending a different phone leaves an unsuccessful lookup unsuccessful. -/
theorem find_phone_append_other (r : Record) (p q : String)
    (h : r.find_phone q = none) (hne : p ≠ q) :
    Record.find_phone { r with phones := r.phones ++ [p] } q = none := by
  unfold Record.find_phone at h ⊢
  simp only [List.find?_append, h, Option.none_or]
  simp [hne]

/-! ## Claim theorems -/

/-- C2 (confirmed): phone validation succeeds exactly on strings of ten
decimal digits, succeeds with the same string, and fails with the message
"Phone number must be 10 digits long." otherwise. -/
theorem c2_phone_validation (s : String) :
    (Phone.init s = .ok s ↔ s.data.length = 10 ∧ ∀ c ∈ s.data, isDig c) ∧
    (Phone.init s = .ok s ∨
      Phone.init s = .error (.valueError "Phone number must be 10 digits long.")) := by
  unfold Phone.init
  split
  case isTrue h =>
    simp only [Bool.and_eq_true, beq_iff_eq, List.all_eq_true] at h
    exact ⟨⟨fun _ => ⟨h.1, h.2⟩, fun _ => rfl⟩, Or.inl rfl⟩
  case isFalse h =>
    constructor
    · constructor
      · intro hok; cases hok
      · intro hc
        refine absurd ?_ h
        simp only [Bool.and_eq_true, beq_iff_eq, List.all_eq_true]
        exact ⟨hc.1, hc.2⟩
    · exact Or.inr rfl

/-- C7 (confirmed): for a valid phone not yet in the record, `add_phone`
appends it at the end, a subsequent `find_phone` returns it, and a second
`add_phone` of an equal value fails with the duplicate message and leaves
the phone list unchanged. -/
theorem c7_add_phone_find_duplicate (r : Record) (p : String)
    (hv : Phone.init p = .ok p) (hnf : r.find_phone p = none) :
    r.add_phone p = ({ r with phones := r.phones ++ [p] }, .ok ()) ∧
    Record.find_phone { r with phones := r.phones ++ [p] } p = some p ∧
    Record.add_phone { r with phones := r.phones ++ [p] } p =
      ({ r with phones := r.phones ++ [p] },
        .error (.valueError ("Phone number '" ++ p ++ "' already exists."))) := by
  refine ⟨?_, find_phone_append_self r p hnf, ?_⟩
  · unfold Record.add_phone
    rw [hnf, hv]
    rfl
  · unfold Record.add_phone
    rw [find_phone_append_self r p hnf]
    rfl

/-- Witness for C7 at a concrete record and phone. -/
theorem c7_witness :
    Record.add_phone ⟨"ann", ["1112223334"], none⟩ "9998887776" =
      (⟨"ann", ["1112223334", "9998887776"], none⟩, .ok ()) ∧
    Record.find_phone ⟨"ann", ["1112223334", "9998887776"], none⟩ "9998887776" =
      some "9998887776" ∧
    Record.add_phone ⟨"ann", ["1112223334", "9998887776"], none⟩ "9998887776" =
      (⟨"ann", ["1112223334", "9998887776"], none⟩,
        .error (.valueError "Phone number '9998887776' already exists.")) :=
  c7_add_phone_find_duplicate ⟨"ann", ["1112223334"], none⟩ "9998887776" rfl rfl

/-- C4 counterexample: the claim quantifies over every pair of valid phone
strings with the new one absent, but for `old = new` on a record without
that phone the removal step finds the phone just added, so the call
succeeds and the new phone does not remain — refuting both conclusions. -/
theorem c4_counterexample :
    (Record.edit_phone ⟨"bob", [], none⟩ "1234567890" "1234567890").2 = .ok () ∧
    (Record.edit_phone ⟨"bob", [], none⟩ "1234567890" "1234567890").1.phones = [] := by
  constructor <;> rfl

/-- C4 as amended (corrected): when additionally `old ≠ new`, the claim
holds: `edit_phone` is `add_phone` of the new value followed by
`remove_phone` of the old one, and when the old phone is absent the call
fails on the removal step while the new phone remains present. -/
theorem c4_edit_phone_partial_mutation (r : Record) (old new : String)
    (_hvo : Phone.init old = .ok old) (hv : Phone.init new = .ok new)
    (hnew : r.find_phone new = none) :
    r.edit_phone old new = Record.remove_phone { r with phones := r.phones ++ [new] } old ∧
    (r.find_phone old = none → old ≠ new →
      (r.edit_phone old new).2 =
        .error (.valueError ("Phone number '" ++ old ++ "' not found.")) ∧
      (r.edit_phone old new).1.find_phone new = some new) := by
  have hstep : r.edit_phone old new =
      Record.remove_phone { r with phones := r.phones ++ [new] } old := by
    unfold Record.edit_phone Record.add_phone
    rw [hnew]
    simp only [Option.isSome_none, Bool.false_eq_true, if_false]
    rw [hv]
  refine ⟨hstep, fun hold hne => ?_⟩
  have hfind : Record.find_phone { r with phones := r.phones ++ [new] } old = none :=
    find_phone_append_other r new old hold (fun h => hne h.symm)
  rw [hstep]
  unfold Record.remove_phone
  rw [hfind]
  exact ⟨rfl, find_phone_append_self r new hnew⟩

/-- Witness for C4's amended theorem at a concrete record and phones. -/
theorem c4_witness :
    (Record.edit_phone ⟨"bob", ["5550001111"], none⟩ "7772223333" "9998887776").2 =
      .error (.valueError "Phone number '7772223333' not found.") ∧
    (Record.edit_phone ⟨"bob", ["5550001111"], none⟩ "7772223333" "9998887776").1.find_phone
      "9998887776" = some "9998887776" :=
  (c4_edit_phone_partial_mutation ⟨"bob", ["5550001111"], none⟩ "7772223333" "9998887776"
    rfl rfl rfl).2 rfl (by decide)

/-- A name the book does not find heads no entry of the book. -/
theorem find_none_keys (b : AddressBook) (name : String) :
    b.find name = none → ∀ kv ∈ b, kv.1 ≠ name := by
  induction b with
  | nil => intro _ kv hkv; cases hkv
  | cons hd tl ih =>
    obtain ⟨k, v⟩ := hd
    intro h kv hkv
    unfold AddressBook.find at h
    by_cases hk : k = name
    · rw [if_pos hk] at h; cases h
    · rw [if_neg hk] at h
      rcases List.mem_cons.mp hkv with rfl | hkv
      · exact hk
      · exact ih h kv hkv

/-- Writing a key the book does not hold changes nothing. -/
theorem updateKey_of_find_none (b : AddressBook) (name : String) (r : Record) :
    b.find name = none → b.updateKey name r = b := by
  induction b with
  | nil => intro _; rfl
  | cons hd tl ih =>
    obtain ⟨k, v⟩ := hd
    intro h
    unfold AddressBook.find at h
    by_cases hk : k = name
    · rw [if_pos hk] at h; cases h
    · rw [if_neg hk] at h
      unfold AddressBook.updateKey
      rw [if_neg hk, ih h]

/-- `add_record` for an absent key appends the entry at the end. -/
theorem add_record_of_find_none (b : AddressBook) (r : Record) :
    b.find r.name = none → b.add_record r = b ++ [(r.name, r)] := by
  induction b with
  | nil => intro _; rfl
  | cons hd tl ih =>
    obtain ⟨k, v⟩ := hd
    intro h
    unfold AddressBook.find at h
    by_cases hk : k = r.name
    · rw [if_pos hk] at h; cases h
    · rw [if_neg hk] at h
      unfold AddressBook.add_record
      rw [if_neg hk, ih h]
      rfl

/-- Lookup of a freshly appended key. -/
theorem find_append_self (b : AddressBook) (name : String) (r : Record) :
    b.find name = none → AddressBook.find (b ++ [(name, r)]) name = some r := by
  induction b with
  | nil =>
    intro _
    rw [List.nil_append]
    unfold AddressBook.find
    rw [if_pos rfl]
  | cons hd tl ih =>
    obtain ⟨k, v⟩ := hd
    intro h
    unfold AddressBook.find at h
    rw [List.cons_append]
    unfold AddressBook.find
    by_cases hk : k = name
    · rw [if_pos hk] at h; cases h
    · rw [if_neg hk] at h ⊢
      exact ih h

/-- Erasing a key makes its lookup fail. -/
theorem find_eraseKey_self (b : AddressBook) (name : String) :
    (b.eraseKey name).find name = none := by
  induction b with
  | nil => rfl
  | cons hd tl ih =>
    obtain ⟨k, v⟩ := hd
    unfold AddressBook.eraseKey
    by_cases hk : k = name
    · rw [if_pos hk]; exact ih
    · rw [if_neg hk]
      unfold AddressBook.find
      rw [if_neg hk]
      exact ih

/-- An erased key names no remaining entry. -/
theorem not_mem_names_eraseKey (b : AddressBook) (name : String) :
    name ∉ (b.eraseKey name).names := by
  induction b with
  | nil => simp [AddressBook.eraseKey, AddressBook.names]
  | cons hd tl ih =>
    obtain ⟨k, v⟩ := hd
    unfold AddressBook.eraseKey
    by_cases hk : k = name
    · rw [if_pos hk]; exact ih
    · rw [if_neg hk]
      intro hmem
      simp only [AddressBook.names, List.map_cons, List.mem_cons] at hmem
      rcases hmem with heq | hmem'
      · exact hk heq.symm
      · exact ih (by simpa only [AddressBook.names] using hmem')

/-- Rewriting a freshly appended entry with its own value changes nothing. -/
theorem updateKey_append_self (b : AddressBook) (name : String) (r : Record) :
    b.find name = none →
    AddressBook.updateKey (b ++ [(name, r)]) name r = b ++ [(name, r)] := by
  induction b with
  | nil =>
    intro _
    rw [List.nil_append]
    unfold AddressBook.updateKey
    rw [if_pos rfl]
    rfl
  | cons hd tl ih =>
    obtain ⟨k, v⟩ := hd
    intro h
    unfold AddressBook.find at h
    by_cases hk : k = name
    · rw [if_pos hk] at h; cases h
    · rw [if_neg hk] at h
      rw [List.cons_append]
      unfold AddressBook.updateKey
      rw [if_neg hk, ih h]

/-- C5 counterexample: invoking `add` with one argument (a wrong arity) is
normalized to the validation-failure string, not to the wrong-arity
string, because Python's tuple unpacking raises `ValueError`. -/
theorem c5_counterexample :
    (add_contact ["1234567890"] []).1 = "Give me name and phone please." ∧
    "Give me name and phone please." ≠
      "Invalid input. Please provide the correct number of arguments." := by
  exact ⟨rfl, by decide⟩

/-- C5 as amended (corrected): the adapter maps `KeyError` to
"Contact not found.", `ValueError` to "Give me name and phone please."
and `IndexError` to the wrong-arity string; a lookup failure in `change`
reaches the adapter as `KeyError`; a wrong-arity `add` surfaces as the
unpacking `ValueError`, so it yields the validation string; only commands
that index into `args` (such as `delet` with no arguments) raise
`IndexError` and yield the wrong-arity string. -/
theorem c5_adapter_normalization :
    (∀ m, input_error (.error (.keyError m)) = "Contact not found.") ∧
    (∀ m, input_error (.error (.valueError m)) = "Give me name and phone please.") ∧
    (∀ m, input_error (.error (.indexError m)) =
      "Invalid input. Please provide the correct number of arguments.") ∧
    (∀ (book : AddressBook) (name old new : String), book.find name = none →
      (change_contact [name, old, new] book).1 = "Contact not found.") ∧
    (∀ (book : AddressBook) (args : List String), args.length ≠ 2 →
      (add_contact args book).1 = "Give me name and phone please.") ∧
    (∀ book : AddressBook, (delet [] book).1 =
      "Invalid input. Please provide the correct number of arguments.") := by
  refine ⟨fun _ => rfl, fun _ => rfl, fun _ => rfl, ?_, ?_, fun _ => rfl⟩
  · intro book name old new h
    simp only [change_contact, change_contact_raw, h, input_error]
  · intro book args h
    match args with
    | [] => rfl
    | [_] => rfl
    | [_, _] => exact absurd rfl h
    | _ :: _ :: _ :: _ => rfl

/-- Witness for C5's amended theorem at concrete arguments. -/
theorem c5_witness :
    (change_contact ["zoe", "1112223334", "5556667778"] []).1 = "Contact not found." ∧
    (add_contact ["zoe"] []).1 = "Give me name and phone please." :=
  ⟨c5_adapter_normalization.2.2.2.1 [] "zoe" "1112223334" "5556667778" rfl,
    c5_adapter_normalization.2.2.2.2.1 [] ["zoe"] (by decide)⟩

/-- C6 counterexample: `change` on an existing contact whose new phone is
already present returns the generic adapter string, not the duplicate
message — `change_contact` has no local handler. -/
theorem c6_counterexample :
    (change_contact ["alice", "0000000000", "1234567890"]
        [("alice", ⟨"alice", ["1234567890"], none⟩)]).1 =
      "Give me name and phone please." ∧
    "Give me name and phone please." ≠ "Phone number '1234567890' already exists." := by
  exact ⟨rfl, by decide⟩

/-- C6 as amended (corrected): `add` and `remove-phone` catch validation
failures locally and return the specific message (duplicate phone,
phone not found), but `change` does not: its duplicate-phone failure
escapes to the adapter and yields the generic validation string. -/
theorem c6_local_handlers (book : AddressBook) (name p old new : String) (r : Record) :
    (book.find name = some r → (r.find_phone p).isSome →
      (add_contact [name, p] book).1 = "Phone number '" ++ p ++ "' already exists.") ∧
    (book.find name = some r → r.find_phone p = none →
      (remove_phone_command [name, p] book).1 =
        "Phone number '" ++ p ++ "' not found.") ∧
    (book.find name = some r → (r.find_phone new).isSome →
      (change_contact [name, old, new] book).1 = "Give me name and phone please.") := by
  refine ⟨?_, ?_, ?_⟩
  · intro hf hdup
    simp only [add_contact, add_contact_raw, hf, Record.add_phone, hdup, if_true,
      input_error]
  · intro hf hnf
    simp only [remove_phone_command, remove_phone_command_raw, hf, Record.remove_phone,
      hnf, input_error]
  · intro hf hdup
    simp only [change_contact, change_contact_raw, hf, Record.edit_phone, hdup, if_true,
      input_error]

/-- Witness for C6's amended theorem at a concrete book. -/
theorem c6_witness :
    (add_contact ["ada", "1234567890"] [("ada", ⟨"ada", ["1234567890"], none⟩)]).1 =
      "Phone number '1234567890' already exists." ∧
    (remove_phone_command ["ada", "0001112223"]
        [("ada", ⟨"ada", ["1234567890"], none⟩)]).1 =
      "Phone number '0001112223' not found." ∧
    (change_contact ["ada", "0001112223", "1234567890"]
        [("ada", ⟨"ada", ["1234567890"], none⟩)]).1 =
      "Give me name and phone please." :=
  ⟨(c6_local_handlers [("ada", ⟨"ada", ["1234567890"], none⟩)] "ada" "1234567890" ""
      "" ⟨"ada", ["1234567890"], none⟩).1 rfl rfl,
    (c6_local_handlers [("ada", ⟨"ada", ["1234567890"], none⟩)] "ada" "0001112223" ""
      "" ⟨"ada", ["1234567890"], none⟩).2.1 rfl rfl,
    (c6_local_handlers [("ada", ⟨"ada", ["1234567890"], none⟩)] "ada" "" "0001112223"
      "1234567890" ⟨"ada", ["1234567890"], none⟩).2.2 rfl rfl⟩

/-- C8 (confirmed): `remove-phone` on a contact whose phone list is exactly
the removed phone deletes the phone and the whole contact, reports the
deletion, and the name no longer resolves or appears among the names the
`all` listing renders. -/
theorem c8_remove_last_phone_deletes_contact (book : AddressBook) (name p : String)
    (r : Record) (hf : book.find name = some r) (hp : r.phones = [p]) :
    remove_phone_command [name, p] book =
      ("Phone removed. Contact '" ++ name ++ "' deleted because no phones left.",
        book.eraseKey name) ∧
    (book.eraseKey name).find name = none ∧
    name ∉ (book.eraseKey name).names := by
  refine ⟨?_, find_eraseKey_self book name, not_mem_names_eraseKey book name⟩
  have hfind : List.find? (fun q => q == p) [p] = some p := by simp
  simp only [remove_phone_command, remove_phone_command_raw, hf, Record.remove_phone,
    Record.find_phone, hp, hfind, List.erase_cons_head, List.isEmpty_nil, if_true,
    input_error]

/-- Witness for C8 at a concrete one-phone book. -/
theorem c8_witness :
    remove_phone_command ["kim", "1112223334"] [("kim", ⟨"kim", ["1112223334"], none⟩)] =
      ("Phone removed. Contact 'kim' deleted because no phones left.",
        AddressBook.eraseKey [("kim", ⟨"kim", ["1112223334"], none⟩)] "kim") ∧
    (AddressBook.eraseKey [("kim", ⟨"kim", ["1112223334"], none⟩)] "kim").find "kim" =
      none ∧
    "kim" ∉ (AddressBook.eraseKey [("kim", ⟨"kim", ["1112223334"], none⟩)] "kim").names :=
  c8_remove_last_phone_deletes_contact [("kim", ⟨"kim", ["1112223334"], none⟩)] "kim"
    "1112223334" ⟨"kim", ["1112223334"], none⟩ rfl rfl

/-- C9 (confirmed): `add` with a fresh name and an invalid phone string
returns the phone validation message, yet the book has changed: the new
record with that name and an empty phone list was inserted before
validation and stays behind, visible to lookups and the `all` listing. -/
theorem c9_add_leaves_empty_record (book : AddressBook) (name p : String)
    (hf : book.find name = none)
    (hbad : (p.data.length == 10 && p.data.all isDig) = false) :
    add_contact [name, p] book =
      ("Phone number must be 10 digits long.", book ++ [(name, ⟨name, [], none⟩)]) ∧
    AddressBook.find (book ++ [(name, ⟨name, [], none⟩)]) name =
      some ⟨name, [], none⟩ ∧
    name ∈ AddressBook.names (book ++ [(name, ⟨name, [], none⟩)]) := by
  refine ⟨?_, find_append_self book name _ hf, ?_⟩
  · simp only [add_contact, add_contact_raw, hf, Record.add_phone, Record.find_phone,
      Phone.init, hbad, List.find?_nil, Option.isSome_none, Bool.false_eq_true, if_false,
      input_error, add_record_of_find_none book ⟨name, [], none⟩ hf,
      updateKey_append_self book name ⟨name, [], none⟩ hf]
  · unfold AddressBook.names
    simp

/-- Witness for C9 at a concrete fresh name and invalid phone. -/
theorem c9_witness :
    add_contact ["eve", "12345"] [] =
      ("Phone number must be 10 digits long.", [("eve", ⟨"eve", [], none⟩)]) ∧
    AddressBook.find [("eve", (⟨"eve", [], none⟩ : Record))] "eve" =
      some ⟨"eve", [], none⟩ ∧
    "eve" ∈ AddressBook.names [("eve", (⟨"eve", [], none⟩ : Record))] := by
  have h := c9_add_leaves_empty_record [] "eve" "12345" rfl rfl
  simpa using h

/-- The only error `replaceYear` can produce is the out-of-range message. -/
theorem replaceYear_error (d : Date) (y : Nat) (e : PyError)
    (h : replaceYear d y = .error e) :
    e = .valueError "day is out of range for month" := by
  unfold replaceYear at h
  split at h
  · cases h
  · cases h; rfl

/-- A Feb-29 birthday in the book forces the whole query to the
out-of-range error when the reference year is not a leap year. -/
theorem upcomingGo_feb29_error (today : Date) (l : List (String × Record))
    (nm : String) (r : Record) (y : Nat)
    (hmem : (nm, r) ∈ l) (hb : r.birthday = some ⟨y, 2, 29⟩)
    (hleap : isLeap today.year = false) :
    upcomingGo today l = .error (.valueError "day is out of range for month") := by
  induction l with
  | nil => cases hmem
  | cons hd tl ih =>
    obtain ⟨k, s⟩ := hd
    rcases List.mem_cons.mp hmem with heq | hmem'
    · obtain ⟨-, rfl⟩ := Prod.mk.injEq .. ▸ heq
      have h29 : replaceYear ⟨y, 2, 29⟩ today.year =
          .error (.valueError "day is out of range for month") := by
        unfold replaceYear daysInMonth
        simp [hleap]
      simp only [upcomingGo, hb, h29]
    · cases hbd : s.birthday with
      | none => simpa only [upcomingGo, hbd] using ih hmem'
      | some b =>
        cases h1 : replaceYear b today.year with
        | error e =>
          simp only [upcomingGo, hbd, h1, replaceYear_error b today.year e h1]
        | ok b1 =>
          cases h2 : (if dateLt b1 today then replaceYear b1 (today.year + 1)
              else Except.ok b1) with
          | error e =>
            have he : e = .valueError "day is out of range for month" := by
              split at h2
              · exact replaceYear_error b1 (today.year + 1) e h2
              · cases h2
            simp only [upcomingGo, hbd, h1, h2, he]
          | ok b2 =>
            simp only [upcomingGo, hbd, h1, h2, ih hmem']

/-- C10 (confirmed): a record whose birthday is February 29 of a leap year
makes the upcoming-birthday query raise inside the year projection when
the reference date lies in a non-leap year, and the `birthdays` command
then surfaces the adapter's generic validation message. -/
theorem c10_feb29_projection_error (book : AddressBook) (today : Date)
    (nm : String) (r : Record) (y : Nat)
    (hmem : (nm, r) ∈ book) (hb : r.birthday = some ⟨y, 2, 29⟩)
    (_hly : isLeap y = true) (hleap : isLeap today.year = false) :
    book.get_upcoming_birthdays today =
      .error (.valueError "day is out of range for month") ∧
    birthdays book today = "Give me name and phone please." := by
  have hq : book.get_upcoming_birthdays today =
      .error (.valueError "day is out of range for month") :=
    upcomingGo_feb29_error today book nm r y hmem hb hleap
  refine ⟨hq, ?_⟩
  simp only [birthdays, birthdays_raw, hq, input_error]

/-- Witness for C10 at a concrete one-record book and reference date. -/
theorem c10_witness :
    AddressBook.get_upcoming_birthdays
        [("leo", ⟨"leo", ["1234567890"], some ⟨2020, 2, 29⟩⟩)] ⟨2025, 1, 1⟩ =
      .error (.valueError "day is out of range for month") ∧
    birthdays [("leo", ⟨"leo", ["1234567890"], some ⟨2020, 2, 29⟩⟩)] ⟨2025, 1, 1⟩ =
      "Give me name and phone please." :=
  c10_feb29_projection_error [("leo", ⟨"leo", ["1234567890"], some ⟨2020, 2, 29⟩⟩)]
    ⟨2025, 1, 1⟩ "leo" ⟨"leo", ["1234567890"], some ⟨2020, 2, 29⟩⟩ 2020
    (List.mem_singleton.mpr rfl) rfl rfl rfl

/-- A successful year projection yields exactly the month/day re-dated. -/
theorem replaceYear_ok (d : Date) (y : Nat) (b : Date)
    (h : replaceYear d y = .ok b) : b = ⟨y, d.month, d.day⟩ := by
  unfold replaceYear at h
  split at h
  · cases h; rfl
  · cases h

/-- C1 (confirmed): the upcoming-birthday query is exactly the spec's
algorithm at a 7-day window — for every record with a birthday it projects
the birthday's month/day onto the reference year, re-projects onto the
next year when the date falls before the reference date, includes the
contact exactly when the day difference lies in `[0, 7]` (a birthday on
the reference date included), shifts a Saturday by 2 days and a Sunday by
1 day to the following Monday, and emits entries in the book's insertion
order. -/
theorem c1_upcoming_birthdays_matches_spec (book : AddressBook) (today : Date) :
    book.get_upcoming_birthdays today = upcomingBirthdaysSpec book today := by
  unfold AddressBook.get_upcoming_birthdays upcomingBirthdaysSpec
  induction book with
  | nil => rfl
  | cons hd tl ih =>
    obtain ⟨k, s⟩ := hd
    cases hbd : s.birthday with
    | none => simpa only [upcomingGo, upcomingSpecGo, hbd] using ih
    | some b =>
      cases h1 : replaceYear b today.year with
      | error e => simp only [upcomingGo, upcomingSpecGo, hbd, h1]
      | ok b1 =>
        have hsame : replaceYear b1 (today.year + 1) = replaceYear b (today.year + 1) := by
          rw [replaceYear_ok b today.year b1 h1]
          unfold replaceYear
          rfl
        cases h2 : (if dateLt b1 today then replaceYear b (today.year + 1)
            else Except.ok b1) with
        | error e =>
          simp only [upcomingGo, upcomingSpecGo, hbd, h1, hsame, h2]
        | ok b2 =>
          simp only [upcomingGo, upcomingSpecGo, hbd, h1, hsame, h2, ih]
          cases hrest : upcomingSpecGo 7 today tl with
          | error e => rfl
          | ok restEntries =>
            simp only []
            have hcast : ((7 : Nat) : Int) = (7 : Int) := by norm_num
            rw [hcast]
            by_cases hin : 0 ≤ (rataDie b2 : Int) - (rataDie today : Int) ∧
                (rataDie b2 : Int) - (rataDie today : Int) ≤ 7
            · rw [if_pos hin, if_pos hin]
              have hw : weekday b2 < 7 := Nat.mod_lt _ (by norm_num)
              by_cases h5 : weekday b2 = 5
              · rw [h5]
                norm_num
              · by_cases h6 : weekday b2 = 6
                · rw [h6]
                  norm_num
                · have hlt : ¬ 5 ≤ weekday b2 := by omega
                  rw [if_neg hlt, if_neg h5, if_neg h6]
            · rw [if_neg hin, if_neg hin]

/-- Every month length is at most 31 days. -/
theorem daysInMonth_le_31 (y m : Nat) : daysInMonth y m ≤ 31 := by
  unfold daysInMonth
  split
  · split <;> omega
  · split <;> omega

/-- The `%d` directive matches a field exactly when it is a 1- or 2-digit
run whose value lies in `1..31`. -/
theorem dayPat_true_iff (t : List Char) :
    dayPat t = true ↔
      (t.all isDig = true ∧ (t.length = 1 ∨ t.length = 2) ∧
        1 ≤ digitsToNat t ∧ digitsToNat t ≤ 31) := by
  match t with
  | [] => simp [dayPat]
  | [c] =>
    simp [dayPat, isDig, digitsToNat]
    omega
  | [c1, c2] =>
    simp [dayPat, isDig, digitsToNat]
    omega
  | c1 :: c2 :: c3 :: rest => simp [dayPat, List.length_cons]

/-- The `%m` directive matches a field exactly when it is a 1- or 2-digit
run whose value lies in `1..12`. -/
theorem monthPat_true_iff (t : List Char) :
    monthPat t = true ↔
      (t.all isDig = true ∧ (t.length = 1 ∨ t.length = 2) ∧
        1 ≤ digitsToNat t ∧ digitsToNat t ≤ 12) := by
  match t with
  | [] => simp [monthPat]
  | [c] =>
    simp [monthPat, isDig, digitsToNat]
    omega
  | [c1, c2] =>
    simp [monthPat, isDig, digitsToNat]
    omega
  | c1 :: c2 :: c3 :: rest => simp [monthPat, List.length_cons]

/-- Field-level equivalence: the `strptime` field stage succeeds exactly
on the descriptive flexible format. -/
theorem strptimeFields_some_iff_flex (l : List (List Char)) :
    (∃ d, strptimeFields l = some d) ↔ specFlexFields l = true := by
  match l with
  | [] => simp [strptimeFields, specFlexFields]
  | [a] => simp [strptimeFields, specFlexFields]
  | [a, b] => simp [strptimeFields, specFlexFields]
  | a :: b :: c :: d :: rest => simp [strptimeFields, specFlexFields]
  | [a, b, c] =>
    simp only [strptimeFields, specFlexFields]
    constructor
    · rintro ⟨dd, hdd⟩
      by_cases hpat : (dayPat a && monthPat b && yearPat c) = true
      · rw [if_pos hpat] at hdd
        by_cases hr : realDate a b c = true
        · simp only [Bool.and_eq_true] at hpat
          obtain ⟨⟨hda, hmb⟩, hyc⟩ := hpat
          obtain ⟨hya, hal, _, _⟩ := (dayPat_true_iff a).mp hda
          obtain ⟨hbm, hbl, _, _⟩ := (monthPat_true_iff b).mp hmb
          simp only [yearPat, Bool.and_eq_true, beq_iff_eq] at hyc
          simp only [Bool.and_eq_true, Bool.or_eq_true, beq_iff_eq, decide_eq_true_eq]
          exact ⟨⟨⟨⟨hya, hal⟩, hbm, hbl⟩, hyc.2, hyc.1⟩, hr⟩
        · rw [if_neg (by simpa using hr)] at hdd
          cases hdd
      · rw [if_neg hpat] at hdd
        cases hdd
    · intro h
      simp only [Bool.and_eq_true, Bool.or_eq_true, beq_iff_eq, decide_eq_true_eq] at h
      obtain ⟨⟨⟨⟨hya, hal⟩, hbm, hbl⟩, hyd, hyl⟩, hr⟩ := h
      have hrr : (1 ≤ digitsToNat c ∧ (1 ≤ digitsToNat b ∧ digitsToNat b ≤ 12) ∧
          1 ≤ digitsToNat a ∧
            digitsToNat a ≤ daysInMonth (digitsToNat c) (digitsToNat b)) := by
        simpa [realDate, Bool.and_eq_true, decide_eq_true_eq, and_assoc] using hr
      have hda : dayPat a = true := (dayPat_true_iff a).mpr
        ⟨hya, hal, hrr.2.2.1, le_trans hrr.2.2.2
          (daysInMonth_le_31 (digitsToNat c) (digitsToNat b))⟩
      have hmb : monthPat b = true := (monthPat_true_iff b).mpr
        ⟨hbm, hbl, hrr.2.1.1, hrr.2.1.2⟩
      have hyc : yearPat c = true := by simp [yearPat, hyl, hyd]
      refine ⟨⟨digitsToNat c, digitsToNat b, digitsToNat a⟩, ?_⟩
      rw [if_pos (by simp [hda, hmb, hyc]), if_pos hr]

/-- C3 counterexample: the code accepts "1.1.1990", which has a 1-digit
day and month, so "valid iff 2-digit day, 2-digit month, 4-digit year"
fails on the code (`strptime`'s `%d`/`%m` also match single digits). -/
theorem c3_counterexample :
    Birthday.init "1.1.1990" = .ok ⟨1990, 1, 1⟩ ∧ specStrictDMY "1.1.1990" = false := by
  constructor <;> rfl

/-- C3 as amended (corrected): birthday validation succeeds exactly on
real calendar dates written day.month.year with a 1- or 2-digit day, a
1- or 2-digit month and a 4-digit year separated by dots; any other form
fails with the message "Invalid date format. Use DD.MM.YYYY". -/
theorem c3_birthday_validation_flexible (s : String) :
    ((∃ d, Birthday.init s = .ok d) ↔ specFlexDMY s = true) ∧
    ((∃ d, Birthday.init s = .ok d) ∨
      Birthday.init s = .error (.valueError "Invalid date format. Use DD.MM.YYYY")) := by
  have hbi : (∃ d, Birthday.init s = .ok d) ↔ (∃ d, strptimeDMY s = some d) := by
    cases h : strptimeDMY s with
    | none => simp [Birthday.init, h]
    | some d => simp [Birthday.init, h]
  constructor
  · exact hbi.trans (strptimeFields_some_iff_flex (splitDots s.data))
  · cases h : strptimeDMY s with
    | none => exact Or.inr (by simp [Birthday.init, h])
    | some d => exact Or.inl ⟨d, by simp [Birthday.init, h]⟩

end Assistant
